import Mathlib

/-
  Verification of the checkout orchestration in src/pages/CheckoutPage.tsx.

  The component's only control-flow logic is the two-step checkout flow:
  collect a shipping address, then run `handlePayment`, which performs four
  sequential fallible remote calls (create payment intent, confirm card
  payment, insert order, insert order items) followed by cart clearing and
  navigation. We embed that flow as pure Lean functions over an environment
  recording the outcome of each external call, and prove the documented
  contract against the embedding. Money is modelled as exact rationals;
  JavaScript `Math.round` is floor of x + 1/2 (round half toward +infinity).
-/

namespace Checkout

/-- JavaScript `Math.round`: rounds half toward positive infinity. -/
def jsRound (q : ℚ) : ℤ := ⌊q + 1/2⌋

/-- Product as referenced from a cart line (CartContext). -/
structure Product where
  id : ℕ
  name : String
  price : ℚ
  imageUrl : String
deriving DecidableEq

/-- One cart line item (CartContext). -/
structure CartItem where
  product : Product
  quantity : ℕ
  size : String
  color : String
deriving DecidableEq

/-- The `ShippingForm` interface of CheckoutPage.tsx. -/
structure ShippingForm where
  fullName : String
  streetAddress : String
  city : String
  state : String
  postalCode : String
  country : String
deriving DecidableEq

/-- Initial value of the `shipping` state hook. -/
def initialShipping : ShippingForm :=
  { fullName := "", streetAddress := "", city := "", state := "",
    postalCode := "", country := "USA" }

/-- The two-valued step indicator: `useState<'shipping' | 'payment'>`. -/
inductive Step
  | shipping
  | payment
deriving DecidableEq

/-- Local component state relevant to the orchestration:
the step indicator, the `isProcessing` flag and the shipping form. -/
structure CheckoutState where
  step : Step
  isProcessing : Bool
  shipping : ShippingForm
deriving DecidableEq

/-- Authenticated identity from AuthContext (`user`). -/
structure User where
  id : ℕ
deriving DecidableEq

/-- `const tax = totalPrice * 0.1`. -/
def tax (totalPrice : ℚ) : ℚ := totalPrice * (1/10)

/-- `const totalAmount = totalPrice + tax`. -/
def totalAmount (totalPrice : ℚ) : ℚ := totalPrice + tax totalPrice

/-- `amount: Math.round(totalAmount * 100)` sent to create-payment-intent. -/
def intentAmount (totalPrice : ℚ) : ℤ := jsRound (totalAmount totalPrice * 100)

/-- `currency: 'usd'` sent to create-payment-intent. -/
def intentCurrency : String := "usd"

/-- Payment intent returned by the gateway on success. -/
structure PaymentIntent where
  clientSecret : String
deriving DecidableEq

/-- Row shape of the `orders` insert in `handlePayment`. -/
structure OrderRow where
  user_id : ℕ
  total : ℚ
  status : String
  shipping_address : ShippingForm
  payment_method : String
deriving DecidableEq

/-- Row shape of the `order_items` insert in `handlePayment`. -/
structure OrderItemRow where
  order_id : ℕ
  product_id : ℕ
  quantity : ℕ
  size : String
  color : String
  price : ℚ
deriving DecidableEq

/-- Outcomes of the external calls made by one run of `handlePayment`:
whether intent creation succeeds (and the returned intent), whether the
Stripe library resolves to a non-null client, whether `confirmCardPayment`
returns without `stripeError`, whether the order insert succeeds (and the
repository-assigned id), and whether the items insert succeeds. -/
structure Env where
  createIntentResult : Option PaymentIntent
  stripeLoads : Bool
  confirmSucceeds : Bool
  insertOrderResult : Option ℕ
  insertItemsSucceeds : Bool
deriving DecidableEq

/-- All four remote steps (and the Stripe load) succeed. -/
def Env.fullSuccess (env : Env) : Bool :=
  env.createIntentResult.isSome && env.stripeLoads && env.confirmSucceeds &&
    env.insertOrderResult.isSome && env.insertItemsSucceeds

/-- Observable outcome of one invocation of the payment flow. -/
structure PaymentResult where
  intentRequests : List (ℤ × String)
  confirmAttempts : ℕ
  ordersInserted : List OrderRow
  orderItemsInserted : List OrderItemRow
  cartCleared : Bool
  navigatedTo : Option String
  alerts : List String
  finalState : CheckoutState
deriving DecidableEq

/-- `items.map(item => ({ order_id, product_id, quantity, size, color, price }))`:
the order-items payload, snapshotting each product's price. -/
def orderItemsOf (items : List CartItem) (orderId : ℕ) : List OrderItemRow :=
  items.map fun item =>
    { order_id := orderId, product_id := item.product.id,
      quantity := item.quantity, size := item.size, color := item.color,
      price := item.product.price }

/-- The `orders` row inserted by `handlePayment`. -/
def orderRowOf (user : User) (totalPrice : ℚ) (shipping : ShippingForm) : OrderRow :=
  { user_id := user.id, total := totalAmount totalPrice, status := "processing",
    shipping_address := shipping, payment_method := "stripe" }

/-- `handlePayment` of CheckoutPage.tsx. It sets `isProcessing` to true,
then runs the try block: create a payment intent, load Stripe, confirm the
card payment, insert the order, insert the order items, clear the cart and
navigate; the first failing step throws into the catch block, which shows
the generic "Payment failed" alert; the finally block always resets
`isProcessing` to false. -/
def handlePayment (env : Env) (user : User) (items : List CartItem)
    (totalPrice : ℚ) (st : CheckoutState) : PaymentResult :=
  let req : ℤ × String := (intentAmount totalPrice, intentCurrency)
  let stFinal : CheckoutState := { st with isProcessing := false }
  match env.createIntentResult with
  | none =>
      { intentRequests := [req], confirmAttempts := 0, ordersInserted := [],
        orderItemsInserted := [], cartCleared := false, navigatedTo := none,
        alerts := ["Payment failed. Please try again."], finalState := stFinal }
  | some _intent =>
      if !env.stripeLoads then
        { intentRequests := [req], confirmAttempts := 0, ordersInserted := [],
          orderItemsInserted := [], cartCleared := false, navigatedTo := none,
          alerts := ["Payment failed. Please try again."], finalState := stFinal }
      else if !env.confirmSucceeds then
        { intentRequests := [req], confirmAttempts := 1, ordersInserted := [],
          orderItemsInserted := [], cartCleared := false, navigatedTo := none,
          alerts := ["Payment failed. Please try again."], finalState := stFinal }
      else
        match env.insertOrderResult with
        | none =>
            { intentRequests := [req], confirmAttempts := 1, ordersInserted := [],
              orderItemsInserted := [], cartCleared := false, navigatedTo := none,
              alerts := ["Payment failed. Please try again."], finalState := stFinal }
        | some orderId =>
            if !env.insertItemsSucceeds then
              { intentRequests := [req], confirmAttempts := 1,
                ordersInserted := [orderRowOf user totalPrice st.shipping],
                orderItemsInserted := [], cartCleared := false, navigatedTo := none,
                alerts := ["Payment failed. Please try again."], finalState := stFinal }
            else
              { intentRequests := [req], confirmAttempts := 1,
                ordersInserted := [orderRowOf user totalPrice st.shipping],
                orderItemsInserted := orderItemsOf items orderId,
                cartCleared := true,
                navigatedTo := some ("/order-confirmation/" ++ toString orderId),
                alerts := [], finalState := stFinal }

/-- Outcome of a click that is ignored because the button is disabled:
no remote calls, no persistence, no state change. -/
def noRemoteResult (st : CheckoutState) : PaymentResult :=
  { intentRequests := [], confirmAttempts := 0, ordersInserted := [],
    orderItemsInserted := [], cartCleared := false, navigatedTo := none,
    alerts := [], finalState := st }

/-- The pay button: `onClick={handlePayment} disabled={isProcessing}`.
A click while `isProcessing` is true is rejected by the disabled state. -/
def clickPay (env : Env) (user : User) (items : List CartItem)
    (totalPrice : ℚ) (st : CheckoutState) : PaymentResult :=
  if st.isProcessing then noRemoteResult st
  else handlePayment env user items totalPrice st

/-- The back button: `onClick={() => setStep('shipping')} disabled={isProcessing}`. -/
def clickBack (st : CheckoutState) : CheckoutState :=
  if st.isProcessing then st else { st with step := Step.shipping }

/-- A navigation issued by the entry guard `useEffect`. -/
inductive Nav
  | cart
  | login (fromPath : String)
deriving DecidableEq

/-- The entry-guard effect: `if (items.length === 0) navigate('/cart');
if (!user) navigate('/login', { state: { from: '/checkout' } })`.
Both navigations are issued when both conditions hold. -/
def guardEffect (items : List CartItem) (user : Option User) : List Nav :=
  (if items.length = 0 then [Nav.cart] else []) ++
    (if user.isNone then [Nav.login "/checkout"] else [])

/-- The six controlled shipping inputs. -/
inductive ShippingField
  | fullName
  | streetAddress
  | city
  | state
  | postalCode
  | country
deriving DecidableEq

/-- `handleShippingChange`: store the changed field value under its name. -/
def handleShippingChange (f : ShippingField) (v : String)
    (form : ShippingForm) : ShippingForm :=
  match f with
  | ShippingField.fullName => { form with fullName := v }
  | ShippingField.streetAddress => { form with streetAddress := v }
  | ShippingField.city => { form with city := v }
  | ShippingField.state => { form with state := v }
  | ShippingField.postalCode => { form with postalCode := v }
  | ShippingField.country => { form with country := v }

/-- Entering a complete form: one `handleShippingChange` per field. -/
def fillForm (current : ShippingForm) (form : ShippingForm) : ShippingForm :=
  handleShippingChange ShippingField.country form.country
    (handleShippingChange ShippingField.postalCode form.postalCode
      (handleShippingChange ShippingField.state form.state
        (handleShippingChange ShippingField.city form.city
          (handleShippingChange ShippingField.streetAddress form.streetAddress
            (handleShippingChange ShippingField.fullName form.fullName current)))))

/-- `handleShippingSubmit`: transition to the payment step. It makes no
remote calls; the second component lists the remote calls it performs. -/
def handleShippingSubmit (st : CheckoutState) : CheckoutState × List (ℤ × String) :=
  ({ st with step := Step.payment }, [])

/-- All shipping fields are non-empty (the `required` input constraint). -/
def ShippingForm.allNonEmpty (f : ShippingForm) : Bool :=
  !(f.fullName == "") && !(f.streetAddress == "") && !(f.city == "") &&
    !(f.state == "") && !(f.postalCode == "") && !(f.country == "")

end Checkout

namespace Checkout

/- Concrete fixtures used by the witness theorems. -/

def productW : Product :=
  { id := 5, name := "shirt", price := 40, imageUrl := "img" }

def itemW : CartItem :=
  { product := productW, quantity := 2, size := "M", color := "blue" }

def userW : User := { id := 1 }

def formW : ShippingForm :=
  { fullName := "A B", streetAddress := "1 Main St", city := "Springfield",
    state := "IL", postalCode := "62701", country := "USA" }

def stShipW : CheckoutState :=
  { step := Step.shipping, isProcessing := false, shipping := initialShipping }

def stPayW : CheckoutState :=
  { step := Step.payment, isProcessing := false, shipping := formW }

def stProcW : CheckoutState :=
  { step := Step.payment, isProcessing := true, shipping := formW }

def envAllW : Env :=
  { createIntentResult := some { clientSecret := "cs" }, stripeLoads := true,
    confirmSucceeds := true, insertOrderResult := some 7,
    insertItemsSucceeds := true }

def envNoIntentW : Env := { envAllW with createIntentResult := none }

def envNoStripeW : Env := { envAllW with stripeLoads := false }

def envNoOrderW : Env := { envAllW with insertOrderResult := none }

def envNoConfirmW : Env := { envAllW with confirmSucceeds := false }

/-- C1: On full success of the payment flow with a cart of N line items
(N ≥ 1), exactly one Order is persisted — with the authenticated user's id,
status "processing", the captured shipping address and payment method
"stripe" — followed by exactly N OrderItems, each referencing the new
Order's id and snapshotting the product's price; then the cart is cleared
and navigation targets the order-confirmation view keyed by the new order
id. -/
theorem C1_full_success (env : Env) (user : User) (items : List CartItem)
    (totalPrice : ℚ) (st : CheckoutState) (intent : PaymentIntent) (orderId : ℕ)
    (hintent : env.createIntentResult = some intent)
    (hstripe : env.stripeLoads = true)
    (hconfirm : env.confirmSucceeds = true)
    (horder : env.insertOrderResult = some orderId)
    (hitems : env.insertItemsSucceeds = true)
    (hn : 1 ≤ items.length) :
    (handlePayment env user items totalPrice st).ordersInserted
        = [{ user_id := user.id, total := totalAmount totalPrice,
             status := "processing", shipping_address := st.shipping,
             payment_method := "stripe" }] ∧
    (handlePayment env user items totalPrice st).orderItemsInserted
        = items.map (fun item =>
            { order_id := orderId, product_id := item.product.id,
              quantity := item.quantity, size := item.size, color := item.color,
              price := item.product.price }) ∧
    (handlePayment env user items totalPrice st).orderItemsInserted.length
        = items.length ∧
    (∀ row ∈ (handlePayment env user items totalPrice st).orderItemsInserted,
        row.order_id = orderId) ∧
    (handlePayment env user items totalPrice st).cartCleared = true ∧
    (handlePayment env user items totalPrice st).navigatedTo
        = some ("/order-confirmation/" ++ toString orderId) := by
  refine ⟨?_, ?_, ?_, ?_, ?_, ?_⟩ <;>
    simp only [handlePayment, hintent, hstripe, hconfirm, horder, hitems,
      Bool.not_true, Bool.false_eq_true, if_false, orderItemsOf, orderRowOf] <;>
    simp [List.mem_map]

theorem C1_full_success_witness :
    envAllW.createIntentResult = some { clientSecret := "cs" } ∧
    envAllW.stripeLoads = true ∧
    envAllW.confirmSucceeds = true ∧
    envAllW.insertOrderResult = some 7 ∧
    envAllW.insertItemsSucceeds = true ∧
    1 ≤ [itemW].length ∧
    ((handlePayment envAllW userW [itemW] 100 stPayW).ordersInserted
        = [{ user_id := userW.id, total := totalAmount 100,
             status := "processing", shipping_address := stPayW.shipping,
             payment_method := "stripe" }] ∧
     (handlePayment envAllW userW [itemW] 100 stPayW).orderItemsInserted
        = [itemW].map (fun item =>
            { order_id := 7, product_id := item.product.id,
              quantity := item.quantity, size := item.size, color := item.color,
              price := item.product.price }) ∧
     (handlePayment envAllW userW [itemW] 100 stPayW).orderItemsInserted.length
        = [itemW].length ∧
     (∀ row ∈ (handlePayment envAllW userW [itemW] 100 stPayW).orderItemsInserted,
        row.order_id = 7) ∧
     (handlePayment envAllW userW [itemW] 100 stPayW).cartCleared = true ∧
     (handlePayment envAllW userW [itemW] 100 stPayW).navigatedTo
        = some ("/order-confirmation/" ++ toString 7)) :=
  ⟨rfl, rfl, rfl, rfl, rfl, by decide,
    C1_full_success envAllW userW [itemW] 100 stPayW ⟨"cs"⟩ 7
      rfl rfl rfl rfl rfl (by decide)⟩

/-- C2: Any failure among the four remote steps (intent creation, payment
confirmation, order insert, item insert) aborts all remaining steps: the
cart is not cleared, no navigation happens, ProcessingFlag resets to false,
the state stays at Payment, and exactly one generic failure notice is shown.
Step by step: when gateway intent creation fails, no Order and no OrderItem
is persisted and payment confirmation is never attempted; when the Stripe
client fails to load, likewise; when payment confirmation fails, no Order
and no OrderItem is persisted; when the order insert fails, no Order and no
OrderItem is persisted; when the item insert fails, no OrderItem is
persisted. -/
theorem C2_failure_aborts (env : Env) (user : User) (items : List CartItem)
    (totalPrice : ℚ) (st : CheckoutState)
    (hfail : env.fullSuccess = false) (hstep : st.step = Step.payment) :
    (handlePayment env user items totalPrice st).finalState.isProcessing = false ∧
    (handlePayment env user items totalPrice st).finalState.step = Step.payment ∧
    (handlePayment env user items totalPrice st).alerts
        = ["Payment failed. Please try again."] ∧
    (handlePayment env user items totalPrice st).cartCleared = false ∧
    (handlePayment env user items totalPrice st).navigatedTo = none ∧
    (env.createIntentResult = none →
      (handlePayment env user items totalPrice st).ordersInserted = [] ∧
      (handlePayment env user items totalPrice st).orderItemsInserted = [] ∧
      (handlePayment env user items totalPrice st).confirmAttempts = 0) ∧
    (env.stripeLoads = false →
      (handlePayment env user items totalPrice st).ordersInserted = [] ∧
      (handlePayment env user items totalPrice st).orderItemsInserted = [] ∧
      (handlePayment env user items totalPrice st).confirmAttempts = 0) ∧
    (env.confirmSucceeds = false →
      (handlePayment env user items totalPrice st).ordersInserted = [] ∧
      (handlePayment env user items totalPrice st).orderItemsInserted = []) ∧
    (env.insertOrderResult = none →
      (handlePayment env user items totalPrice st).ordersInserted = [] ∧
      (handlePayment env user items totalPrice st).orderItemsInserted = []) ∧
    (env.insertItemsSucceeds = false →
      (handlePayment env user items totalPrice st).orderItemsInserted = []) := by
  rcases env with ⟨ci, sl, cs, io, ii⟩
  cases ci <;> cases sl <;> cases cs <;> cases io <;> cases ii <;>
    simp_all [handlePayment, Env.fullSuccess]

theorem C2_failure_aborts_witness :
    envNoIntentW.fullSuccess = false ∧
    envNoConfirmW.fullSuccess = false ∧
    envNoOrderW.fullSuccess = false ∧
    stPayW.step = Step.payment ∧
    (handlePayment envNoIntentW userW [itemW] 100 stPayW).finalState.isProcessing
        = false ∧
    (handlePayment envNoIntentW userW [itemW] 100 stPayW).finalState.step
        = Step.payment ∧
    (handlePayment envNoIntentW userW [itemW] 100 stPayW).ordersInserted = [] ∧
    (handlePayment envNoIntentW userW [itemW] 100 stPayW).orderItemsInserted = [] ∧
    (handlePayment envNoIntentW userW [itemW] 100 stPayW).confirmAttempts = 0 ∧
    (handlePayment envNoConfirmW userW [itemW] 100 stPayW).ordersInserted = [] ∧
    (handlePayment envNoConfirmW userW [itemW] 100 stPayW).orderItemsInserted = [] ∧
    (handlePayment envNoOrderW userW [itemW] 100 stPayW).ordersInserted = [] ∧
    (handlePayment envNoOrderW userW [itemW] 100 stPayW).orderItemsInserted = [] := by
  obtain ⟨p1, p2, -, -, -, p6, -, -, -, -⟩ :=
    C2_failure_aborts envNoIntentW userW [itemW] 100 stPayW rfl rfl
  obtain ⟨-, -, -, -, -, -, -, q8, -, -⟩ :=
    C2_failure_aborts envNoConfirmW userW [itemW] 100 stPayW rfl rfl
  obtain ⟨-, -, -, -, -, -, -, -, r9, -⟩ :=
    C2_failure_aborts envNoOrderW userW [itemW] 100 stPayW rfl rfl
  exact ⟨rfl, rfl, rfl, rfl, p1, p2, (p6 rfl).1, (p6 rfl).2.1, (p6 rfl).2.2,
    (q8 rfl).1, (q8 rfl).2, (r9 rfl).1, (r9 rfl).2⟩

/-- C3: For every subtotal, the amount the payment flow sends to the gateway
equals round(subtotal * 1.1 * 100) in minor units with currency "usd"
(exactly one intent request per invocation); for subtotal = 100 the computed
tax is 10, the total is 110, and the amount sent is 11000. -/
theorem C3_gateway_amount (env : Env) (user : User) (items : List CartItem)
    (subtotal : ℚ) (st : CheckoutState) :
    (handlePayment env user items subtotal st).intentRequests
        = [(jsRound (subtotal * (11/10) * 100), "usd")] ∧
    tax 100 = 10 ∧ totalAmount 100 = 110 ∧ intentAmount 100 = 11000 := by
  have hq : totalAmount subtotal * 100 = subtotal * (11/10) * 100 := by
    unfold totalAmount tax; ring
  have hfloor : intentAmount 100 = 11000 := by
    have h1 : totalAmount 100 * 100 = 11000 := by norm_num [totalAmount, tax]
    rw [intentAmount, jsRound, h1]
    refine Int.floor_eq_iff.mpr ⟨by norm_num, by norm_num⟩
  refine ⟨?_, by norm_num [tax], by norm_num [totalAmount, tax], hfloor⟩
  rcases env with ⟨ci, sl, cs, io, ii⟩
  cases ci <;> cases sl <;> cases cs <;> cases io <;> cases ii <;>
    simp_all [handlePayment, intentAmount, intentCurrency, jsRound]

/-- C4: If order persistence fails after successful payment confirmation, no
OrderItem is persisted; item-creation is reached only when order-creation
succeeded, and the cart is cleared only when both the Order and its
OrderItems were persisted successfully. -/
theorem C4_atomicity (env : Env) (user : User) (items : List CartItem)
    (totalPrice : ℚ) (st : CheckoutState)
    (hconfirm : env.confirmSucceeds = true) :
    (env.insertOrderResult = none →
        (handlePayment env user items totalPrice st).orderItemsInserted = [] ∧
        (handlePayment env user items totalPrice st).cartCleared = false) ∧
    ((handlePayment env user items totalPrice st).orderItemsInserted ≠ [] →
        env.insertOrderResult.isSome = true) ∧
    ((handlePayment env user items totalPrice st).cartCleared = true →
        env.insertOrderResult.isSome = true ∧
        env.insertItemsSucceeds = true) := by
  rcases env with ⟨ci, sl, cs, io, ii⟩
  cases ci <;> cases sl <;> cases cs <;> cases io <;> cases ii <;>
    simp_all [handlePayment]

theorem C4_atomicity_witness :
    envNoOrderW.confirmSucceeds = true ∧
    (handlePayment envNoOrderW userW [itemW] 100 stPayW).orderItemsInserted
        = [] ∧
    (handlePayment envNoOrderW userW [itemW] 100 stPayW).cartCleared = false := by
  have h := C4_atomicity envNoOrderW userW [itemW] 100 stPayW rfl
  exact ⟨rfl, (h.1 rfl).1, (h.1 rfl).2⟩

/-- C5: Whenever ProcessingFlag is already true, a click on the pay button is
rejected as a no-op: no remote calls are made, nothing is persisted, and the
component state is unchanged. -/
theorem C5_processing_noop (env : Env) (user : User) (items : List CartItem)
    (totalPrice : ℚ) (st : CheckoutState) (h : st.isProcessing = true) :
    clickPay env user items totalPrice st = noRemoteResult st ∧
    (clickPay env user items totalPrice st).intentRequests = [] ∧
    (clickPay env user items totalPrice st).confirmAttempts = 0 ∧
    (clickPay env user items totalPrice st).ordersInserted = [] ∧
    (clickPay env user items totalPrice st).orderItemsInserted = [] ∧
    (clickPay env user items totalPrice st).cartCleared = false ∧
    (clickPay env user items totalPrice st).finalState = st := by
  simp [clickPay, h, noRemoteResult]

theorem C5_processing_noop_witness :
    stProcW.isProcessing = true ∧
    clickPay envAllW userW [itemW] 100 stProcW = noRemoteResult stProcW ∧
    (clickPay envAllW userW [itemW] 100 stProcW).finalState = stProcW := by
  have h := C5_processing_noop envAllW userW [itemW] 100 stProcW rfl
  exact ⟨rfl, h.1, h.2.2.2.2.2.2⟩

/-- C6: Entry guard — on every run of the guard effect, an empty cart issues
a redirect to the cart view regardless of authentication state, and a
missing authenticated identity issues a redirect to the login view carrying
the return path "/checkout", regardless of cart contents. -/
theorem C6_entry_guard (items : List CartItem) (user : Option User) :
    (items = [] → Nav.cart ∈ guardEffect items user) ∧
    (user = none → Nav.login "/checkout" ∈ guardEffect items user) := by
  constructor
  · intro h; subst h; simp [guardEffect]
  · intro h; subst h; simp [guardEffect]

theorem C6_entry_guard_witness :
    Nav.cart ∈ guardEffect [] (some userW) ∧
    Nav.login "/checkout" ∈ guardEffect [itemW] none :=
  ⟨(C6_entry_guard [] (some userW)).1 rfl,
   (C6_entry_guard [itemW] none).2 rfl⟩

/-- C7: For every shipping form with all fields non-empty, entering the form
and submitting it stores the form, transitions the checkout state from
Shipping to Payment, and performs no remote calls. -/
theorem C7_submit_shipping (form : ShippingForm) (st : CheckoutState)
    (hfields : form.allNonEmpty = true) (hstep : st.step = Step.shipping) :
    (handleShippingSubmit
        { st with shipping := fillForm st.shipping form }).1.shipping = form ∧
    (handleShippingSubmit
        { st with shipping := fillForm st.shipping form }).1.step
        = Step.payment ∧
    (handleShippingSubmit
        { st with shipping := fillForm st.shipping form }).2 = [] := by
  cases form
  simp [handleShippingSubmit, fillForm, handleShippingChange]

theorem C7_submit_shipping_witness :
    formW.allNonEmpty = true ∧
    stShipW.step = Step.shipping ∧
    (handleShippingSubmit
        { stShipW with shipping := fillForm stShipW.shipping formW }).1.shipping
        = formW ∧
    (handleShippingSubmit
        { stShipW with shipping := fillForm stShipW.shipping formW }).1.step
        = Step.payment ∧
    (handleShippingSubmit
        { stShipW with shipping := fillForm stShipW.shipping formW }).2 = [] := by
  have h := C7_submit_shipping formW stShipW (by decide) rfl
  exact ⟨by decide, rfl, h.1, h.2.1, h.2.2⟩

/-- C8: The Back transition from Payment to Shipping can never occur while a
payment is being processed: with ProcessingFlag true the back button is
disabled, the click changes nothing, and the state stays at Payment. -/
theorem C8_back_disabled (st : CheckoutState) (h : st.isProcessing = true) :
    clickBack st = st ∧
    (st.step = Step.payment → (clickBack st).step = Step.payment) := by
  simp [clickBack, h]

theorem C8_back_disabled_witness :
    stProcW.isProcessing = true ∧
    clickBack stProcW = stProcW ∧
    (clickBack stProcW).step = Step.payment := by
  have h := C8_back_disabled stProcW rfl
  exact ⟨rfl, h.1, h.2 rfl⟩

/-- C9: Every Order row the payment flow persists carries the exact
unrounded total subtotal * 1.1, independent of the rounded minor-units
amount sent to the gateway; and there is a subtotal for which the persisted
total times 100 differs from the charged minor-units amount. -/
theorem C9_persisted_total (env : Env) (user : User) (items : List CartItem)
    (subtotal : ℚ) (st : CheckoutState) :
    (∀ row ∈ (handlePayment env user items subtotal st).ordersInserted,
        row.total = subtotal * (11/10)) ∧
    (∃ q : ℚ, totalAmount q * 100 ≠ ((intentAmount q : ℤ) : ℚ)) := by
  have htot : totalAmount subtotal = subtotal * (11/10) := by
    unfold totalAmount tax; ring
  constructor
  · rcases env with ⟨ci, sl, cs, io, ii⟩
    cases ci <;> cases sl <;> cases cs <;> cases io <;> cases ii <;>
      simp_all [handlePayment, orderRowOf]
  · refine ⟨1/200, ?_⟩
    have h1 : totalAmount (1/200) * 100 = 11/20 := by
      norm_num [totalAmount, tax]
    have h2 : intentAmount (1/200) = 1 := by
      rw [intentAmount, jsRound, h1]
      refine Int.floor_eq_iff.mpr ⟨by norm_num, by norm_num⟩
    rw [h1, h2]
    norm_num

theorem C9_persisted_total_witness :
    (orderRowOf userW 100 formW).total = 100 * (11/10) ∧
    (∃ q : ℚ, totalAmount q * 100 ≠ ((intentAmount q : ℤ) : ℚ)) := by
  have h := C9_persisted_total envAllW userW [itemW] 100 stPayW
  refine ⟨h.1 (orderRowOf userW 100 formW) ?_, h.2⟩
  simp [handlePayment, envAllW, stPayW]

/-- C10: If the Stripe client resolves to null after a payment intent was
successfully created, the flow aborts through the generic failure path:
payment confirmation is never attempted, no Order and no OrderItems are
persisted, the cart is unchanged, no navigation happens, and ProcessingFlag
returns to false. -/
theorem C10_stripe_load_failure (env : Env) (user : User)
    (items : List CartItem) (totalPrice : ℚ) (st : CheckoutState)
    (intent : PaymentIntent)
    (hintent : env.createIntentResult = some intent)
    (hstripe : env.stripeLoads = false) :
    (handlePayment env user items totalPrice st).confirmAttempts = 0 ∧
    (handlePayment env user items totalPrice st).ordersInserted = [] ∧
    (handlePayment env user items totalPrice st).orderItemsInserted = [] ∧
    (handlePayment env user items totalPrice st).cartCleared = false ∧
    (handlePayment env user items totalPrice st).navigatedTo = none ∧
    (handlePayment env user items totalPrice st).alerts
        = ["Payment failed. Please try again."] ∧
    (handlePayment env user items totalPrice st).finalState.isProcessing
        = false := by
  simp [handlePayment, hintent, hstripe]

theorem C10_stripe_load_failure_witness :
    envNoStripeW.createIntentResult = some { clientSecret := "cs" } ∧
    envNoStripeW.stripeLoads = false ∧
    (handlePayment envNoStripeW userW [itemW] 100 stPayW).confirmAttempts
        = 0 ∧
    (handlePayment envNoStripeW userW [itemW] 100 stPayW).ordersInserted
        = [] ∧
    (handlePayment envNoStripeW userW [itemW] 100 stPayW).orderItemsInserted
        = [] ∧
    (handlePayment envNoStripeW userW [itemW] 100 stPayW).cartCleared
        = false ∧
    (handlePayment envNoStripeW userW [itemW] 100 stPayW).finalState.isProcessing
        = false := by
  have h := C10_stripe_load_failure envNoStripeW userW [itemW] 100 stPayW
    ⟨"cs"⟩ rfl rfl
  exact ⟨rfl, rfl, h.1, h.2.1, h.2.2.1, h.2.2.2.1, h.2.2.2.2.2.2⟩

end Checkout
